import Mathlib

/-!
Shallow embedding of `src/main.py`, a FastAPI "Stocks API" facade over an
upstream quote/chart provider.  Python dictionaries with optional keys are
modelled with `Option` fields; Python truthiness (`x or y`, `if ts`) is
modelled explicitly; numeric JSON values are modelled as `Rat`; epoch
timestamps as `Int`.  The HTTP layer is modelled by passing the upstream
response (status code and parsed body) as an argument to each handler.
-/

namespace StocksApi

/-- The characters Python `str.strip` removes (ASCII whitespace), identified
by code point: space, tab, newline, carriage return, vertical tab, form feed. -/
def isPySpace (c : Char) : Bool :=
  decide (c.toNat = 32 ∨ c.toNat = 9 ∨ c.toNat = 10 ∨ c.toNat = 13 ∨
    c.toNat = 11 ∨ c.toNat = 12)

/-- ASCII model of Python `str.upper` on one character. -/
def pyUpperChar (c : Char) : Char :=
  if 97 ≤ c.toNat ∧ c.toNat ≤ 122 then Char.ofNat (c.toNat - 32) else c

/-- Python `s.upper()` (ASCII model), character-wise. -/
def pyUpper (s : String) : String :=
  ⟨s.data.map pyUpperChar⟩

/-- Python `s.strip()` on the underlying character list: drop leading and
trailing whitespace. -/
def stripChars (l : List Char) : List Char :=
  ((l.dropWhile isPySpace).reverse.dropWhile isPySpace).reverse

/-- Python `s.strip()`. -/
def pyStrip (s : String) : String :=
  ⟨stripChars s.data⟩

/-- Symbol canonicalization `symbol.upper().strip()` — main.py:45, main.py:89. -/
def canonSymbol (symbol : String) : String :=
  pyStrip (pyUpper symbol)

/-- Zero-pad a natural number to two digits. -/
def pad2 (n : Nat) : String :=
  if n < 10 then "0" ++ toString n else toString n

/-- Zero-pad a natural number to four digits. -/
def pad4 (n : Nat) : String :=
  if n < 10 then "000" ++ toString n
  else if n < 100 then "00" ++ toString n
  else if n < 1000 then "0" ++ toString n
  else toString n

/-- Proleptic-Gregorian civil date from a count of days since 1970-01-01,
the standard era-based conversion used by `datetime`.  Returns
(year, month, day). -/
def civilFromDays (z0 : Int) : Int × Nat × Nat :=
  let z : Int := z0 + 719468
  let era : Int := z.fdiv 146097
  let doe : Nat := (z - era * 146097).toNat
  let yoe : Nat := (doe - doe / 1460 + doe / 36524 - doe / 146096) / 365
  let doy : Nat := doe - (365 * yoe + yoe / 4 - yoe / 100)
  let mp : Nat := (5 * doy + 2) / 153
  let d : Nat := doy - (153 * mp + 2) / 5 + 1
  let m : Nat := if mp < 10 then mp + 3 else mp - 9
  (((yoe : Int) + era * 400) + (if m ≤ 2 then 1 else 0), m, d)

/-- `_iso_from_epoch` — main.py:28-30:
`datetime.fromtimestamp(sec, tz=timezone.utc).isoformat()` for whole-second
epochs, i.e. "YYYY-MM-DDTHH:MM:SS+00:00". -/
def _iso_from_epoch (sec : Int) : String :=
  let days : Int := sec.fdiv 86400
  let rem : Nat := (sec - days * 86400).toNat
  match civilFromDays days with
  | (y, m, d) =>
    pad4 y.toNat ++ "-" ++ pad2 m ++ "-" ++ pad2 d ++ "T" ++
      pad2 (rem / 3600) ++ ":" ++ pad2 (rem % 3600 / 60) ++ ":" ++
      pad2 (rem % 60) ++ "+00:00"

/-- Outcome of a request handler: a successful JSON payload or an
`HTTPException` with the given status code (main.py:49,53,81,94,98,133). -/
inductive Outcome (α : Type) where
  | success (val : α)
  | error (status : Nat)
deriving DecidableEq

/-- The first element of `quoteResponse.result` as the handler reads it
(main.py:54-64): every key fetched with `.get`, hence optional; a JSON
`null` value and an absent key are both `none`. -/
structure QuoteResult where
  regularMarketPrice : Option Rat := none
  regularMarketChange : Option Rat := none
  regularMarketChangePercent : Option Rat := none
  regularMarketOpen : Option Rat := none
  regularMarketDayHigh : Option Rat := none
  regularMarketDayLow : Option Rat := none
  regularMarketTime : Option Int := none
  currency : Option String := none
  fullExchangeName : Option String := none
  exchange : Option String := none
  shortName : Option String := none
  longName : Option String := none
deriving DecidableEq

/-- The upstream quote document: `(data or {}).get("quoteResponse", {}).get("result", [])`
(main.py:51).  `none` models the `result` key being absent or JSON `null`
(or any enclosing object being absent/null, which yields the same handler
behaviour). -/
structure QuoteDoc where
  result : Option (List QuoteResult) := none
deriving DecidableEq

/-- The JSON object returned by `get_quote` (main.py:65-77).
`open_price` carries the response key "open". -/
structure QuoteRecord where
  symbol : String
  price : Option Rat
  change : Option Rat
  change_percent : Option Rat
  open_price : Option Rat
  high : Option Rat
  low : Option Rat
  as_of : Option String
  currency : Option String
  exchange : Option String
  name : String
deriving DecidableEq

/-- Python `a or b` where `a` is an optional string and the result must be a
string: an absent (`None`) or empty (falsy) `a` falls through to `b`. -/
def strOrElse (a : Option String) (b : String) : String :=
  match a with
  | some s => if s = "" then b else s
  | none => b

/-- Python `a or b` on two optional strings (used for
`q.get("fullExchangeName") or q.get("exchange")`, main.py:63): a `None` or
empty `a` falls through to `b` unchanged. -/
def pyOrStrOpt (a b : Option String) : Option String :=
  match a with
  | some s => if s = "" then b else some s
  | none => b

/-- Build the quote response body from the first upstream result
(main.py:54-77).  `sym` is the canonicalized symbol.  The `as_of` field is
`_iso_from_epoch(ts) if ts else None` (main.py:73): Python truthiness, so a
present-but-zero timestamp also yields `None`. -/
def normalizeQuote (sym : String) (q : QuoteResult) : QuoteRecord :=
  { symbol := sym
    price := q.regularMarketPrice
    change := q.regularMarketChange
    change_percent := q.regularMarketChangePercent
    open_price := q.regularMarketOpen
    high := q.regularMarketDayHigh
    low := q.regularMarketDayLow
    as_of :=
      match q.regularMarketTime with
      | some t => if t ≠ 0 then some (_iso_from_epoch t) else none
      | none => none
    currency := q.currency
    exchange := pyOrStrOpt q.fullExchangeName q.exchange
    name := strOrElse q.shortName (strOrElse q.longName sym) }

/-- The `get_quote` handler (main.py:43-81), given the upstream HTTP status
and parsed body.  Status ≠ 200 → 502 before the body is read; empty or
absent result list → 404; otherwise the first result is normalized. -/
def get_quote (symbol : String) (status : Nat) (doc : QuoteDoc) :
    Outcome QuoteRecord :=
  let sym := canonSymbol symbol
  if status ≠ 200 then Outcome.error 502
  else
    match doc.result with
    | none => Outcome.error 404
    | some [] => Outcome.error 404
    | some (q :: _) => Outcome.success (normalizeQuote sym q)

/-- The parallel-array bundle `indicators.quote[0]` (main.py:102-107): each
array fetched with `.get(key, [])`, elements may be JSON `null` (`none`).
An array-valued key that is itself `null` behaves in the source exactly like
`[]` (every per-index access raises and the point is skipped), so `[]`
models it. -/
structure ChartQuotes where
  opens : List (Option Rat) := []
  highs : List (Option Rat) := []
  lows : List (Option Rat) := []
  closes : List (Option Rat) := []
  volumes : List (Option Rat) := []
deriving DecidableEq

/-- One element of `chart.result` (main.py:99-102). `timestamp := none`
models the key absent or `null` (both map to `[]` via
`series.get("timestamp", []) or []`); `quote := none` models
`indicators.quote` absent or `null`. -/
structure ChartSeries where
  timestamp : Option (List Int) := none
  quote : Option (List ChartQuotes) := none
deriving DecidableEq

/-- The upstream chart document: `(data or {}).get("chart", {}).get("result", [])`
(main.py:96). `none` models `result` absent or JSON `null`. -/
structure ChartDoc where
  result : Option (List ChartSeries) := none
deriving DecidableEq

/-- `series.get("timestamp", []) or []` (main.py:100). -/
def timestampsOf (s : ChartSeries) : List Int :=
  s.timestamp.getD []

/-- `(indicators.get("quote", []) or [{}])[0]` (main.py:102): an absent,
`null`, or empty `quote` bundle yields the empty object `{}`. -/
def quotesOf (s : ChartSeries) : ChartQuotes :=
  match s.quote with
  | some (q :: _) => q
  | _ => {}

/-- One emitted intraday point (main.py:119-126). -/
structure Bar where
  t : String
  o : Rat
  h : Rat
  l : Rat
  c : Rat
  v : Rat
deriving DecidableEq

/-- `volumes[i] if i < len(volumes) else 0` followed by `float(v or 0)`
(main.py:116 and main.py:125): an index past the end of `volumes` gives 0
(the `else 0` arm), a `null` element gives 0 (`None or 0`), and any other
element gives its value (`x or 0 = x` for nonzero `x`, and `0 or 0 = 0`). -/
def pointVolume (volumes : List (Option Rat)) (i : Nat) : Rat :=
  (match volumes[i]? with
   | some vv => vv
   | none => some 0).getD 0

/-- The loop body for index `i`, timestamp `t` (main.py:111-128): any
out-of-range access to opens/highs/lows/closes raises `IndexError`, which is
caught (`continue`); a `None` among o/h/l/c skips the point
(`if None in (o, h, l, c): continue`); the volume never disqualifies a
point. -/
def buildPoint (q : ChartQuotes) (i : Nat) (t : Int) : Option Bar :=
  match q.opens[i]?, q.highs[i]?, q.lows[i]?, q.closes[i]? with
  | some (some o), some (some h), some (some l), some (some c) =>
    some { t := _iso_from_epoch t, o := o, h := h, l := l, c := c,
           v := pointVolume q.volumes i }
  | _, _, _, _ => none

/-- The point-building loop `for i, t in enumerate(timestamps)`
(main.py:108-128): skipped points contribute nothing, order is preserved. -/
def intradayPoints (ts : List Int) (q : ChartQuotes) : List Bar :=
  ts.enum.filterMap fun p => buildPoint q p.1 p.2

/-- The intraday response body (main.py:129). -/
structure IntradaySeries where
  symbol : String
  interval : String
  points : List Bar
deriving DecidableEq

/-- The intraday handler body (main.py:89-129), given a validated interval
and the upstream HTTP status and parsed body. -/
def intradayHandler (symbol interval : String) (status : Nat) (doc : ChartDoc) :
    Outcome IntradaySeries :=
  let sym := canonSymbol symbol
  if status ≠ 200 then Outcome.error 502
  else
    match doc.result with
    | none => Outcome.error 404
    | some [] => Outcome.error 404
    | some (series :: _) =>
      Outcome.success
        { symbol := sym
          interval := interval
          points := intradayPoints (timestampsOf series) (quotesOf series) }

/-- The interval pattern `^(1m|2m|5m|15m|30m|60m|90m)$` of main.py:87. -/
def validInterval (interval : String) : Bool :=
  interval ∈ ["1m", "2m", "5m", "15m", "30m", "60m", "90m"]

/-- Modelled from the spec: the framework-level query validation wrapped
around the handler is not part of `src/main.py` (the source only declares
`interval: str = Query("5m", pattern="^(1m|2m|5m|15m|30m|60m|90m)$")`,
main.py:87).  Per the spec (§4.5, §6), an interval failing the pattern is
rejected with status 400 before the handler body — hence before any
outbound call — and an omitted interval defaults to "5m".  The second
component records whether the upstream chart endpoint was called. -/
def intraday (symbol : String) (interval : Option String) (status : Nat)
    (doc : ChartDoc) : Outcome IntradaySeries × Bool :=
  let itv := interval.getD "5m"
  if validInterval itv then (intradayHandler symbol itv status doc, true)
  else (Outcome.error 400, false)

/-- C1: for every interval query value outside {1m, 2m, 5m, 15m, 30m, 60m, 90m},
the intraday endpoint returns HTTP status 400 and performs no outbound call
to the upstream chart endpoint (the call flag is `false`), and the interval
defaults to 5m when omitted. -/
theorem C1_interval_validation (symbol itv : String) (st : Nat)
    (doc doc2 : ChartDoc)
    (h : itv ∉ ["1m", "2m", "5m", "15m", "30m", "60m", "90m"]) :
    intraday symbol (some itv) st doc = (Outcome.error 400, false) ∧
    intraday symbol none st doc2 = intraday symbol (some "5m") st doc2 := by
  constructor
  · have hv : validInterval itv = false := by
      unfold validInterval
      exact decide_eq_false h
    simp [intraday, hv]
  · rfl

/-- Witness for C1 at the concrete invalid interval "3m". -/
theorem C1_interval_validation_witness :
    intraday "AAPL" (some "3m") 200 { result := none } = (Outcome.error 400, false) ∧
    intraday "AAPL" none 200 { result := none } =
      intraday "AAPL" (some "5m") 200 { result := none } :=
  C1_interval_validation "AAPL" "3m" 200 { result := none } { result := none }
    (by decide)

/-- C2: for the upstream chart payload with timestamps [100, 200, 300],
opens [1, null, 3], highs [2, 2, 4], lows [0, 0, 2], closes [1.5, 2, 3.5],
volumes [10, 20, 30], the intraday normalizer produces exactly 2 bars, for
epochs 100 and 300 in that order, with the point at epoch 200 silently
skipped. -/
theorem C2_normalizer_example :
    intraday "AAPL" (some "5m") 200
      { result := some [{ timestamp := some [100, 200, 300],
                          quote := some [{ opens := [some 1, none, some 3],
                                           highs := [some 2, some 2, some 4],
                                           lows := [some 0, some 0, some 2],
                                           closes := [some (3/2), some 2, some (7/2)],
                                           volumes := [some 10, some 20, some 30] }] }] } =
    (Outcome.success
      { symbol := "AAPL", interval := "5m",
        points := [{ t := _iso_from_epoch 100, o := 1, h := 2, l := 0, c := 3/2, v := 10 },
                   { t := _iso_from_epoch 300, o := 3, h := 4, l := 2, c := 7/2, v := 30 }] },
     true) := by
  rfl

/-- C6: for every symbol whose upstream response (status 200) has an absent
or empty result sequence, both the quote endpoint and the intraday endpoint
return HTTP status 404. -/
theorem C6_empty_result_404 (symbol itv : String) (qdoc : QuoteDoc)
    (cdoc : ChartDoc)
    (hq : qdoc.result = none ∨ qdoc.result = some [])
    (hc : cdoc.result = none ∨ cdoc.result = some [])
    (hitv : validInterval itv = true) :
    get_quote symbol 200 qdoc = Outcome.error 404 ∧
    (intraday symbol (some itv) 200 cdoc).1 = Outcome.error 404 := by
  constructor
  · rcases hq with h | h <;> simp [get_quote, h]
  · rcases hc with h | h <;> simp [intraday, hitv, intradayHandler, h]

/-- Witness for C6 at a concrete empty-result and absent-result document. -/
theorem C6_empty_result_404_witness :
    get_quote "AAPL" 200 { result := some [] } = Outcome.error 404 ∧
    (intraday "AAPL" (some "5m") 200 { result := none }).1 = Outcome.error 404 :=
  C6_empty_result_404 "AAPL" "5m" { result := some [] } { result := none }
    (Or.inr rfl) (Or.inl rfl) (by decide)

/-- C7: for every upstream response with HTTP status different from 200,
both the quote endpoint and the intraday endpoint return HTTP status 502,
regardless of the upstream response body content. -/
theorem C7_bad_status_502 (symbol itv : String) (st : Nat) (hst : st ≠ 200)
    (qdoc : QuoteDoc) (cdoc : ChartDoc) (hitv : validInterval itv = true) :
    get_quote symbol st qdoc = Outcome.error 502 ∧
    (intraday symbol (some itv) st cdoc).1 = Outcome.error 502 := by
  constructor
  · simp [get_quote, hst]
  · simp [intraday, hitv, intradayHandler, hst]

/-- Witness for C7 at status 503 with non-empty bodies. -/
theorem C7_bad_status_502_witness :
    get_quote "MSFT" 503 { result := some [{}] } = Outcome.error 502 ∧
    (intraday "MSFT" (some "1m") 503 { result := some [{}] }).1 = Outcome.error 502 :=
  C7_bad_status_502 "MSFT" "1m" 503 (by decide) { result := some [{}] }
    { result := some [{}] } (by decide)

/-- C8: with upstream status 200, the intraday endpoint returns a successful
series for every non-empty chart.result — whatever the per-point content, so
even when every point is skipped and the series has zero bars — and returns
404 exactly when chart.result is wholly absent or empty. -/
theorem C8_zero_bar_series_ok (symbol itv : String)
    (hitv : validInterval itv = true) (doc : ChartDoc) :
    (∀ s rest, doc.result = some (s :: rest) →
      (intraday symbol (some itv) 200 doc).1 =
        Outcome.success { symbol := canonSymbol symbol, interval := itv,
                          points := intradayPoints (timestampsOf s) (quotesOf s) }) ∧
    ((doc.result = none ∨ doc.result = some []) →
      (intraday symbol (some itv) 200 doc).1 = Outcome.error 404) := by
  constructor
  · intro s rest h
    simp [intraday, hitv, intradayHandler, h]
  · rintro (h | h) <;> simp [intraday, hitv, intradayHandler, h]

/-- Witness for C8: a concrete series in which every point is skipped
(all closes null) yields a successful zero-bar response. -/
theorem C8_zero_bar_series_ok_witness :
    (intraday " aapl " (some "5m") 200
      { result := some [{ timestamp := some [100, 200],
                          quote := some [{ closes := [none, none] }] }] }).1 =
    Outcome.success { symbol := "AAPL", interval := "5m", points := [] } := by
  rw [(C8_zero_bar_series_ok " aapl " "5m" (by decide)
        { result := some [{ timestamp := some [100, 200],
                            quote := some [{ closes := [none, none] }] }] }).1
      { timestamp := some [100, 200], quote := some [{ closes := [none, none] }] }
      [] rfl]
  rfl

/-- C10: if the upstream chart document has a non-empty chart.result but the
indicators.quote bundle is absent, null, or an empty list, the intraday
endpoint still returns a successful response with zero points, not an error
status. -/
theorem C10_missing_quote_bundle (symbol itv : String)
    (hitv : validInterval itv = true) (doc : ChartDoc) (s : ChartSeries)
    (rest : List ChartSeries) (hres : doc.result = some (s :: rest))
    (hq : s.quote = none ∨ s.quote = some []) :
    (intraday symbol (some itv) 200 doc).1 =
      Outcome.success { symbol := canonSymbol symbol, interval := itv,
                        points := [] } := by
  have hquotes : quotesOf s = {} := by
    rcases hq with h | h <;> simp [quotesOf, h]
  have hpts : intradayPoints (timestampsOf s) {} = [] := by
    refine List.filterMap_eq_nil_iff.mpr ?_
    intro p _
    rfl
  simp [intraday, hitv, intradayHandler, hres, hquotes, hpts]

/-- Witness for C10 at a concrete document whose only series has timestamps
but a null indicators.quote bundle. -/
theorem C10_missing_quote_bundle_witness :
    (intraday "NVDA" (some "15m") 200
      { result := some [{ timestamp := some [100, 200] }] }).1 =
    Outcome.success { symbol := "NVDA", interval := "15m", points := [] } :=
  C10_missing_quote_bundle "NVDA" "15m" (by decide)
    { result := some [{ timestamp := some [100, 200] }] }
    { timestamp := some [100, 200] } [] rfl (Or.inl rfl)

/-- C3 (counterexample): the claim "whenever regularMarketTime is present,
as_of equals its ISO conversion" fails at a present-but-zero timestamp: the
source guard is `_iso_from_epoch(ts) if ts else None` (main.py:73), and
Python truthiness treats 0 as falsy, so as_of is none rather than the ISO
conversion of 0. -/
theorem C3_as_of_counterexample :
    (normalizeQuote "AAPL" { regularMarketTime := some 0 }).as_of = none ∧
    (none : Option String) ≠ some (_iso_from_epoch 0) := by
  refine ⟨rfl, ?_⟩
  intro h
  exact Option.noConfusion h

/-- C3 (amended): in the quote response, whenever regularMarketTime is
present and nonzero, as_of equals its ISO-8601 UTC conversion; whenever the
field is absent — or present with the falsy value 0 — as_of is none, never
a placeholder zero date. -/
theorem C3_as_of_amended (sym : String) (q : QuoteResult) :
    (∀ t, q.regularMarketTime = some t → t ≠ 0 →
      (normalizeQuote sym q).as_of = some (_iso_from_epoch t)) ∧
    ((q.regularMarketTime = none ∨ q.regularMarketTime = some 0) →
      (normalizeQuote sym q).as_of = none) := by
  constructor
  · intro t ht hnz
    simp [normalizeQuote, ht, hnz]
  · rintro (h | h) <;> simp [normalizeQuote, h]

/-- Witness for the amended C3 at a present nonzero timestamp and at an
absent one. -/
theorem C3_as_of_amended_witness :
    (normalizeQuote "AAPL" { regularMarketTime := some 100 }).as_of =
      some (_iso_from_epoch 100) ∧
    (normalizeQuote "AAPL" { }).as_of = none :=
  ⟨(C3_as_of_amended "AAPL" { regularMarketTime := some 100 }).1 100 rfl
      (by decide),
   (C3_as_of_amended "AAPL" { }).2 (Or.inl rfl)⟩

/-- C4: every bar in an intraday response comes from the per-point builder;
a built bar always has its open/high/low/close equal to in-range, non-null
upstream values; its volume is 0 whenever the upstream volume at that index
is out of range or null; and a point with all four of open/high/low/close
present is emitted no matter what the volumes array holds. -/
theorem C4_bar_invariants (ts : List Int) (q : ChartQuotes) (i : Nat) (t : Int) :
    (∀ b ∈ intradayPoints ts q, ∃ j u, buildPoint q j u = some b) ∧
    (∀ b, buildPoint q i t = some b →
      (∃ o, q.opens[i]? = some (some o) ∧ b.o = o) ∧
      (∃ h, q.highs[i]? = some (some h) ∧ b.h = h) ∧
      (∃ l, q.lows[i]? = some (some l) ∧ b.l = l) ∧
      (∃ c, q.closes[i]? = some (some c) ∧ b.c = c) ∧
      ((q.volumes[i]? = none ∨ q.volumes[i]? = some none) → b.v = 0)) ∧
    (∀ o h l c, q.opens[i]? = some (some o) → q.highs[i]? = some (some h) →
      q.lows[i]? = some (some l) → q.closes[i]? = some (some c) →
      (buildPoint q i t).isSome = true) := by
  refine ⟨?_, ?_, ?_⟩
  · intro b hb
    unfold intradayPoints at hb
    rcases List.mem_filterMap.mp hb with ⟨p, _, hfb⟩
    exact ⟨p.1, p.2, hfb⟩
  · intro b hb
    unfold buildPoint at hb
    split at hb
    · rename_i o h l c ho hh hl hc
      injection hb with hb
      subst hb
      refine ⟨⟨o, ho, rfl⟩, ⟨h, hh, rfl⟩, ⟨l, hl, rfl⟩, ⟨c, hc, rfl⟩, ?_⟩
      rintro (hv | hv) <;> simp [pointVolume, hv]
    · exact Option.noConfusion hb
  · intro o h l c ho hh hl hc
    simp [buildPoint, ho, hh, hl, hc]

/-- Witness for C4: a point whose volumes array is empty is still emitted
(volume alone cannot disqualify it). -/
theorem C4_bar_invariants_witness :
    (buildPoint { opens := [some 1], highs := [some 2], lows := [some 0],
                  closes := [some (3/2)], volumes := [] } 0 100).isSome = true :=
  (C4_bar_invariants []
      { opens := [some 1], highs := [some 2], lows := [some 0],
        closes := [some (3/2)], volumes := [] } 0 100).2.2
    1 2 0 (3/2) rfl rfl rfl rfl

/-- C5 (counterexample): the claim "name equals the upstream short display
name if present, … and is therefore never empty" fails on the code: the
source computes `q.get("shortName") or q.get("longName") or sym`
(main.py:64), so a present-but-empty shortName (falsy) is skipped, and when
the canonical symbol itself is empty the name can be the empty string. -/
theorem C5_name_counterexample :
    (normalizeQuote "AAPL" { shortName := some "",
                             longName := some "Long Corp" }).name = "Long Corp" ∧
    "Long Corp" ≠ "" ∧
    (normalizeQuote "" { }).name = "" := by
  refine ⟨rfl, ?_, rfl⟩
  intro h
  exact String.noConfusion h (fun h' => List.noConfusion h')

/-- C5 (amended): for every quote response built from a non-empty upstream
result, the name field equals the upstream short display name if present and
non-empty, else the long display name if present and non-empty, else the
canonical symbol; hence it is never empty whenever the canonical symbol is
non-empty. -/
theorem C5_name_amended (sym : String) (q : QuoteResult) :
    (∀ s, q.shortName = some s → s ≠ "" → (normalizeQuote sym q).name = s) ∧
    ((q.shortName = none ∨ q.shortName = some "") →
      ∀ s, q.longName = some s → s ≠ "" → (normalizeQuote sym q).name = s) ∧
    ((q.shortName = none ∨ q.shortName = some "") →
      (q.longName = none ∨ q.longName = some "") →
      (normalizeQuote sym q).name = sym) ∧
    (sym ≠ "" → (normalizeQuote sym q).name ≠ "") := by
  refine ⟨?_, ?_, ?_, ?_⟩
  · intro s hs hne
    simp [normalizeQuote, strOrElse, hs, hne]
  · rintro (h | h) s hs hne <;> simp [normalizeQuote, strOrElse, h, hs, hne]
  · rintro (h | h) (h' | h') <;> simp [normalizeQuote, strOrElse, h, h']
  · intro hsym
    have key : ∀ (a : Option String) (b : String), b ≠ "" → strOrElse a b ≠ "" := by
      intro a b hb
      cases a with
      | none => simpa [strOrElse] using hb
      | some s =>
        by_cases h : s = "" <;> simp [strOrElse, h, hb]
    simpa [normalizeQuote] using key q.shortName _ (key q.longName sym hsym)

/-- Witness for the amended C5: a non-empty shortName wins, and with neither
display name present the canonical symbol is used. -/
theorem C5_name_amended_witness :
    (normalizeQuote "AAPL" { shortName := some "Apple Inc." }).name = "Apple Inc." ∧
    (normalizeQuote "AAPL" { }).name = "AAPL" :=
  ⟨(C5_name_amended "AAPL" { shortName := some "Apple Inc." }).1 "Apple Inc."
      rfl (by decide),
   (C5_name_amended "AAPL" { }).2.2.1 (Or.inl rfl) (Or.inl rfl)⟩

theorem toNat_ofNat_of_valid {n : Nat} (hn : n < 55296) :
    (Char.ofNat n).toNat = n := by
  have hv : Nat.isValidChar n := Or.inl hn
  rw [Char.ofNat, dif_pos hv]
  rfl

theorem pyUpperChar_idem (c : Char) :
    pyUpperChar (pyUpperChar c) = pyUpperChar c := by
  unfold pyUpperChar
  by_cases h : 97 ≤ c.toNat ∧ c.toNat ≤ 122
  · rw [if_pos h, if_neg (by
      rw [toNat_ofNat_of_valid (show c.toNat - 32 < 55296 by omega)]
      omega)]
  · rw [if_neg h, if_neg h]

theorem isPySpace_pyUpperChar (c : Char) :
    isPySpace (pyUpperChar c) = isPySpace c := by
  unfold pyUpperChar
  by_cases h : 97 ≤ c.toNat ∧ c.toNat ≤ 122
  · rw [if_pos h]
    unfold isPySpace
    rw [toNat_ofNat_of_valid (show c.toNat - 32 < 55296 by omega)]
    exact decide_eq_decide.mpr (by omega)
  · rw [if_neg h]

theorem dropWhile_idem {α : Type} (p : α → Bool) (l : List α) :
    (l.dropWhile p).dropWhile p = l.dropWhile p := by
  induction l with
  | nil => rfl
  | cons a t ih =>
    by_cases h : p a
    · rw [List.dropWhile_cons_of_pos h]
      exact ih
    · rw [List.dropWhile_cons_of_neg h, List.dropWhile_cons_of_neg h]

theorem head?_dropWhile_false {α : Type} (p : α → Bool) (l : List α) :
    ∀ a, (l.dropWhile p).head? = some a → p a = false := by
  induction l with
  | nil =>
    intro a h
    exact Option.noConfusion h
  | cons b t ih =>
    intro a h
    by_cases hb : p b
    · rw [List.dropWhile_cons_of_pos hb] at h
      exact ih a h
    · rw [List.dropWhile_cons_of_neg hb] at h
      simp only [List.head?_cons, Option.some.injEq] at h
      subst h
      simpa using hb

theorem getLast?_dropWhile_ne_nil {α : Type} (p : α → Bool) (l : List α)
    (h : l.dropWhile p ≠ []) :
    (l.dropWhile p).getLast? = l.getLast? := by
  obtain ⟨s, hs⟩ := List.dropWhile_suffix p (l := l)
  conv_rhs => rw [← hs]
  rw [List.getLast?_append]
  cases hg : (l.dropWhile p).getLast? with
  | none => exact absurd (List.getLast?_eq_none_iff.mp hg) h
  | some x => rfl

theorem dropWhile_eq_self_of_head {α : Type} (p : α → Bool) (v : List α)
    (a : α) (hh : v.head? = some a) (hp : p a = false) :
    v.dropWhile p = v := by
  cases v with
  | nil => rfl
  | cons b t =>
    simp only [List.head?_cons, Option.some.injEq] at hh
    subst hh
    rw [List.dropWhile_cons_of_neg (by simp [hp])]

theorem stripChars_idem (l : List Char) :
    stripChars (stripChars l) = stripChars l := by
  have hA : (((l.dropWhile isPySpace).reverse.dropWhile isPySpace).reverse).dropWhile isPySpace =
      ((l.dropWhile isPySpace).reverse.dropWhile isPySpace).reverse := by
    by_cases hR : (l.dropWhile isPySpace).reverse.dropWhile isPySpace = []
    · rw [hR]
      rfl
    · have hL : l.dropWhile isPySpace ≠ [] := by
        intro hL
        rw [hL] at hR
        exact hR rfl
      obtain ⟨a, ha⟩ : ∃ a, (l.dropWhile isPySpace).head? = some a := by
        cases hcase : l.dropWhile isPySpace with
        | nil => exact absurd hcase hL
        | cons x xs => exact ⟨x, rfl⟩
      have hpa : isPySpace a = false := head?_dropWhile_false isPySpace l a ha
      refine dropWhile_eq_self_of_head isPySpace _ a ?_ hpa
      rw [List.head?_reverse, getLast?_dropWhile_ne_nil isPySpace _ hR,
        List.getLast?_reverse]
      exact ha
  unfold stripChars
  rw [hA, List.reverse_reverse, dropWhile_idem]

theorem stripChars_map_pyUpperChar (l : List Char) :
    stripChars (l.map pyUpperChar) = (stripChars l).map pyUpperChar := by
  have hp : (isPySpace ∘ pyUpperChar) = isPySpace := funext isPySpace_pyUpperChar
  unfold stripChars
  rw [List.dropWhile_map, hp, ← List.map_reverse, List.dropWhile_map, hp,
    ← List.map_reverse]

theorem map_pyUpperChar_idem (l : List Char) :
    (l.map pyUpperChar).map pyUpperChar = l.map pyUpperChar := by
  have h : pyUpperChar ∘ pyUpperChar = pyUpperChar := funext pyUpperChar_idem
  rw [List.map_map, h]

/-- C9: symbol canonicalization (`symbol.upper().strip()`) is idempotent:
for every input string, canonicalizing twice yields the same result as
canonicalizing once. -/
theorem C9_canonSymbol_idem (s : String) :
    canonSymbol (canonSymbol s) = canonSymbol s := by
  unfold canonSymbol pyStrip pyUpper
  show (⟨stripChars ((stripChars (s.data.map pyUpperChar)).map pyUpperChar)⟩ : String) =
    ⟨stripChars (s.data.map pyUpperChar)⟩
  rw [← stripChars_map_pyUpperChar, map_pyUpperChar_idem, stripChars_idem]

end StocksApi
